import Mathlib

/-
Verification of the stagehand-rust client library (src/lib.rs): a shallow
embedding of its JSON frame decoders, SSE stream pump, session lifecycle
methods, and model-configuration serializer, with theorems settling the
specification claims about them.
-/

-- =============================================================================
-- JSON values (shallow embedding of serde_json::Value)
-- =============================================================================

mutual
/-- Shallow embedding of serde_json::Value. Object fields are kept as an
ordered field list (serde_json maps have unique keys; lookup takes the first
match). Numbers are modelled as integers; none of the decoded fields in the
library inspects a number. -/
inductive Json where
  | null : Json
  | bool (b : Bool) : Json
  | num (n : Int) : Json
  | str (s : String) : Json
  | arr (xs : JsonList) : Json
  | obj (fs : JsonFields) : Json

/-- List of JSON array elements (mutually inductive with Json so that
recursion over values stays structural). -/
inductive JsonList where
  | nil : JsonList
  | cons (x : Json) (xs : JsonList) : JsonList

/-- List of JSON object fields (key-value pairs), mutually inductive with
Json. -/
inductive JsonFields where
  | nil : JsonFields
  | cons (k : String) (v : Json) (fs : JsonFields) : JsonFields
end

/-- Builds a JsonFields value from an ordinary list, for readable object
literals. -/
def fieldsOfList : List (String × Json) → JsonFields
  | [] => JsonFields.nil
  | (k, v) :: rest => JsonFields.cons k v (fieldsOfList rest)

/-- Convenience constructor for JSON objects from a list of fields. -/
def Json.mkObj (l : List (String × Json)) : Json :=
  Json.obj (fieldsOfList l)

/-- Field lookup in an object body: the value of the first field with the
given key, or Null when absent. -/
def JsonFields.get : JsonFields → String → Json
  | .nil, _ => Json.null
  | .cons k v fs, key => if k = key then v else JsonFields.get fs key

/-- Models serde_json indexing json_value["key"]: the value for the key when
the receiver is an object that has it, Null otherwise (missing key or
non-object receiver). -/
def Json.getKey : Json → String → Json
  | .obj fs, key => fs.get key
  | _, _ => Json.null

/-- Models serde_json Value::as_str: some s for a string value, none
otherwise. -/
def Json.asStr : Json → Option String
  | .str s => some s
  | _ => none

/-- Models serde_json Value::as_bool: some b for a boolean value, none
otherwise. -/
def Json.asBool : Json → Option Bool
  | .bool b => some b
  | _ => none

/-- Hexadecimal digit character for a value below 16 (lowercase, as
serde_json prints escape sequences). -/
def hexDigit (n : Nat) : Char :=
  if n < 10 then Char.ofNat (48 + n) else Char.ofNat (87 + n)

/-- Models serde_json string escaping for one character: quote, backslash and
the named control escapes get a backslash form, other control characters a
\u00XX form, everything else is passed through. -/
def escapeChar (c : Char) : String :=
  if c = '"' then "\\\""
  else if c = '\\' then "\\\\"
  else if c = '\x08' then "\\b"
  else if c = '\t' then "\\t"
  else if c = '\n' then "\\n"
  else if c = '\x0c' then "\\f"
  else if c = '\r' then "\\r"
  else if c.toNat < 32 then
    "\\u00" ++ String.mk [hexDigit (c.toNat / 16), hexDigit (c.toNat % 16)]
  else String.singleton c

/-- Escapes every character of a string for inclusion in a JSON string
literal. -/
def escapeString (s : String) : String :=
  String.join (s.data.map escapeChar)

mutual
/-- Models serde_json Value::to_string: the compact JSON rendering used by
the library when it stringifies a result payload (DataJson, ElementsJson,
ResultJson). -/
def Json.render : Json → String
  | .null => "null"
  | .bool true => "true"
  | .bool false => "false"
  | .num n => ToString.toString n
  | .str s => "\"" ++ escapeString s ++ "\""
  | .arr xs => "[" ++ JsonList.render xs ++ "]"
  | .obj fs => "\x7b" ++ JsonFields.render fs ++ "\x7d"

/-- Comma-separated rendering of JSON array elements. -/
def JsonList.render : JsonList → String
  | .nil => ""
  | .cons x .nil => Json.render x
  | .cons x xs => Json.render x ++ "," ++ JsonList.render xs

/-- Comma-separated rendering of JSON object fields. -/
def JsonFields.render : JsonFields → String
  | .nil => ""
  | .cons k v .nil => "\"" ++ escapeString k ++ "\":" ++ Json.render v
  | .cons k v fs =>
      "\"" ++ escapeString k ++ "\":" ++ Json.render v ++ "," ++ JsonFields.render fs
end

-- =============================================================================
-- Error taxonomy and response types (lib.rs lines 19-99, 262-291)
-- =============================================================================

/-- StagehandError (lib.rs lines 262-267): the complete error taxonomy of the
library. It has exactly these three variants. -/
inductive StagehandError where
  | transport (msg : String) : StagehandError
  | api (msg : String) : StagehandError
  | missingApiKey (key : String) : StagehandError
deriving DecidableEq, Repr

/-- LogLine (lib.rs lines 21-26). -/
structure LogLine where
  message : String
  status : Option String
deriving DecidableEq, Repr

/-- InitResult (lib.rs lines 31-34). -/
structure InitResult where
  sessionId : String
deriving DecidableEq, Repr

/-- InitResponseEvent (lib.rs lines 38-41). -/
inductive InitResponseEvent where
  | log (l : LogLine) : InitResponseEvent
  | result (r : InitResult) : InitResponseEvent
deriving DecidableEq, Repr

/-- InitResponse (lib.rs lines 45-47). -/
structure InitResponse where
  event : Option InitResponseEvent
deriving DecidableEq, Repr

/-- ActResponseEvent (lib.rs lines 51-54). -/
inductive ActResponseEvent where
  | log (l : LogLine) : ActResponseEvent
  | success (b : Bool) : ActResponseEvent
deriving DecidableEq, Repr

/-- ActResponse (lib.rs lines 58-60). -/
structure ActResponse where
  event : Option ActResponseEvent
deriving DecidableEq, Repr

/-- ExtractResponseEvent (lib.rs lines 64-67). -/
inductive ExtractResponseEvent where
  | log (l : LogLine) : ExtractResponseEvent
  | dataJson (s : String) : ExtractResponseEvent
deriving DecidableEq, Repr

/-- ExtractResponse (lib.rs lines 71-73). -/
structure ExtractResponse where
  event : Option ExtractResponseEvent
deriving DecidableEq, Repr

/-- ObserveResponseEvent (lib.rs lines 77-80). -/
inductive ObserveResponseEvent where
  | log (l : LogLine) : ObserveResponseEvent
  | elementsJson (s : String) : ObserveResponseEvent
deriving DecidableEq, Repr

/-- ObserveResponse (lib.rs lines 84-86). -/
structure ObserveResponse where
  event : Option ObserveResponseEvent
deriving DecidableEq, Repr

/-- ExecuteResponseEvent (lib.rs lines 90-93). -/
inductive ExecuteResponseEvent where
  | log (l : LogLine) : ExecuteResponseEvent
  | resultJson (s : String) : ExecuteResponseEvent
deriving DecidableEq, Repr

/-- ExecuteResponse (lib.rs lines 96-99). -/
structure ExecuteResponse where
  event : Option ExecuteResponseEvent
deriving DecidableEq, Repr

-- =============================================================================
-- Frame decoders (lib.rs: parse_log_event and the stream map closures of
-- act / extract / observe / execute)
-- =============================================================================

/-- RestTransport::parse_log_event (lib.rs lines 381-387): reads
data.message (defaulting to the empty string) and data.status; always
returns Some in the source, hence the Option is always populated. -/
def parseLogEvent (j : Json) : Option LogLine :=
  some
    { message := (((j.getKey "data").getKey "message").asStr).getD ""
      status := ((j.getKey "data").getKey "status").asStr }

/-- Per-frame decoder of RestTransport::act (lib.rs lines 523-557): the body
of the closure mapped over each stream item. A "system" frame with status
"finished" yields Success (success defaulting to true), status "error"
yields an Api error with the server message (defaulting to "Unknown error"),
any other status or a non-string status yields no event; a "log" frame
yields a Log event; any other discriminator yields no event; a frame without
a string "type" yields Success from the top-level success field (defaulting
to true). -/
def decodeActFrame (j : Json) : Except StagehandError ActResponse :=
  match (j.getKey "type").asStr with
  | some eventType =>
    if eventType = "system" then
      match ((j.getKey "data").getKey "status").asStr with
      | some status =>
        if status = "finished" then
          Except.ok ⟨some (.success
            (((((j.getKey "data").getKey "result").getKey "success").asBool).getD true))⟩
        else if status = "error" then
          Except.error (.api ((((j.getKey "data").getKey "error").asStr).getD "Unknown error"))
        else Except.ok ⟨none⟩
      | none => Except.ok ⟨none⟩
    else if eventType = "log" then
      match parseLogEvent j with
      | some l => Except.ok ⟨some (.log l)⟩
      | none => Except.ok ⟨none⟩
    else Except.ok ⟨none⟩
  | none => Except.ok ⟨some (.success (((j.getKey "success").asBool).getD true))⟩

/-- Per-frame decoder of RestTransport::extract (lib.rs lines 610-643): like
act, but a "finished" frame yields DataJson of the stringified data.result,
and the no-discriminator fallback yields DataJson of the whole frame. -/
def decodeExtractFrame (j : Json) : Except StagehandError ExtractResponse :=
  match (j.getKey "type").asStr with
  | some eventType =>
    if eventType = "system" then
      match ((j.getKey "data").getKey "status").asStr with
      | some status =>
        if status = "finished" then
          Except.ok ⟨some (.dataJson (((j.getKey "data").getKey "result").render))⟩
        else if status = "error" then
          Except.error (.api ((((j.getKey "data").getKey "error").asStr).getD "Unknown error"))
        else Except.ok ⟨none⟩
      | none => Except.ok ⟨none⟩
    else if eventType = "log" then
      match parseLogEvent j with
      | some l => Except.ok ⟨some (.log l)⟩
      | none => Except.ok ⟨none⟩
    else Except.ok ⟨none⟩
  | none => Except.ok ⟨some (.dataJson j.render)⟩

/-- Per-frame decoder of RestTransport::observe (lib.rs lines 693-726):
like extract with ElementsJson as the terminal payload. -/
def decodeObserveFrame (j : Json) : Except StagehandError ObserveResponse :=
  match (j.getKey "type").asStr with
  | some eventType =>
    if eventType = "system" then
      match ((j.getKey "data").getKey "status").asStr with
      | some status =>
        if status = "finished" then
          Except.ok ⟨some (.elementsJson (((j.getKey "data").getKey "result").render))⟩
        else if status = "error" then
          Except.error (.api ((((j.getKey "data").getKey "error").asStr).getD "Unknown error"))
        else Except.ok ⟨none⟩
      | none => Except.ok ⟨none⟩
    else if eventType = "log" then
      match parseLogEvent j with
      | some l => Except.ok ⟨some (.log l)⟩
      | none => Except.ok ⟨none⟩
    else Except.ok ⟨none⟩
  | none => Except.ok ⟨some (.elementsJson j.render)⟩

/-- Per-frame decoder of RestTransport::execute (lib.rs lines 748-781):
like extract with ResultJson as the terminal payload. -/
def decodeExecuteFrame (j : Json) : Except StagehandError ExecuteResponse :=
  match (j.getKey "type").asStr with
  | some eventType =>
    if eventType = "system" then
      match ((j.getKey "data").getKey "status").asStr with
      | some status =>
        if status = "finished" then
          Except.ok ⟨some (.resultJson (((j.getKey "data").getKey "result").render))⟩
        else if status = "error" then
          Except.error (.api ((((j.getKey "data").getKey "error").asStr).getD "Unknown error"))
        else Except.ok ⟨none⟩
      | none => Except.ok ⟨none⟩
    else if eventType = "log" then
      match parseLogEvent j with
      | some l => Except.ok ⟨some (.log l)⟩
      | none => Except.ok ⟨none⟩
    else Except.ok ⟨none⟩
  | none => Except.ok ⟨some (.resultJson j.render)⟩

-- =============================================================================
-- SSE pump and per-operation streams (RestTransport::execute_stream,
-- lib.rs lines 335-379, and the stream maps of the four operations)
-- =============================================================================

/-- One item of the underlying SSE client stream, as consumed by the pump
loop of execute_stream. An SSE event carries its data payload: the result of
serde_json parsing is modelled as the already-attempted parse (some parsed
value, or none when the text is not valid JSON) together with the raw text
used in the failure message. Non-event SSE items (comments) are ignored by
the loop, and a stream-level error carries its message. -/
inductive SseItem where
  | event (parsed : Option Json) (raw : String) : SseItem
  | comment : SseItem
  | connErr (msg : String) : SseItem

/-- The pump loop of RestTransport::execute_stream (lib.rs lines 352-376):
a parsed event is forwarded as Ok, an unparsable event is forwarded as an
Api error without stopping the loop, non-event items are skipped, and a
stream-level error is forwarded as a Transport error after which the loop
breaks (so nothing follows it). The bounded channel is modelled as the
resulting list, in order. -/
def ssePump : List SseItem → List (Except StagehandError Json)
  | [] => []
  | SseItem.event (some j) _ :: rest => Except.ok j :: ssePump rest
  | SseItem.event none raw :: rest =>
      Except.error (.api ("Failed to parse SSE event: " ++ raw)) :: ssePump rest
  | SseItem.comment :: rest => ssePump rest
  | SseItem.connErr m :: _ => [Except.error (.transport m)]

/-- The item stream returned by RestTransport::act (lib.rs lines 523-557):
each pumped item is passed through and_then with the act frame decoder. -/
def actStream (items : List SseItem) : List (Except StagehandError ActResponse) :=
  (ssePump items).map (fun r => r.bind decodeActFrame)

/-- The item stream returned by RestTransport::extract (lib.rs lines
610-643). -/
def extractStream (items : List SseItem) : List (Except StagehandError ExtractResponse) :=
  (ssePump items).map (fun r => r.bind decodeExtractFrame)

/-- The item stream returned by RestTransport::observe (lib.rs lines
693-726). -/
def observeStream (items : List SseItem) : List (Except StagehandError ObserveResponse) :=
  (ssePump items).map (fun r => r.bind decodeObserveFrame)

/-- The item stream returned by RestTransport::execute (lib.rs lines
748-781). -/
def executeStream (items : List SseItem) : List (Except StagehandError ExecuteResponse) :=
  (ssePump items).map (fun r => r.bind decodeExecuteFrame)

-- =============================================================================
-- Session lifecycle (struct Stagehand, lib.rs lines 801-876)
-- =============================================================================

/-- The mutable state of struct Stagehand (lib.rs lines 801-804): the
optional session id. None is the uninitialized state, Some an active
session. -/
structure StagehandState where
  sessionId : Option String
deriving DecidableEq, Repr

/-- The loop body of Stagehand::init (lib.rs lines 814-830) over the init
stream items, returning the session id it settles on or the error it
aborts with: the first Err item is returned as the error; an Ok item whose
event is a Result with a non-empty session id returns that id; every other
Ok item is skipped; an exhausted stream yields the dedicated Api error. -/
def stagehandInitLoop : List (Except StagehandError InitResponse) → Except StagehandError String
  | [] => Except.error (.api "Init stream ended without a session ID.")
  | Except.error e :: _ => Except.error e
  | Except.ok r :: rest =>
    match r.event with
    | some (.result res) =>
        if res.sessionId = "" then stagehandInitLoop rest else Except.ok res.sessionId
    | _ => stagehandInitLoop rest

/-- Stagehand::init (lib.rs lines 814-830) as a state transformer over the
items of the transport's init stream: on success the session id is stored,
on failure the state is left untouched and the error returned. -/
def stagehandInit (st : StagehandState) (items : List (Except StagehandError InitResponse)) :
    StagehandState × Except StagehandError Unit :=
  match stagehandInitLoop items with
  | Except.ok sid => (⟨some sid⟩, Except.ok ())
  | Except.error e => (st, Except.error e)

/-- Marks the items of an init stream that make the loop of Stagehand::init
stop: an Err item, or an Ok Result event with a non-empty session id. -/
def initSignificant : Except StagehandError InitResponse → Bool
  | Except.error _ => true
  | Except.ok r =>
    match r.event with
    | some (.result res) => !(res.sessionId = "")
    | _ => false

/-- The five session-gated operations of struct Stagehand. -/
inductive OpKind where
  | act : OpKind
  | extract : OpKind
  | observe : OpKind
  | execute : OpKind
  | close : OpKind
deriving DecidableEq, Repr

/-- One invocation of the underlying transport, recording which operation
reached it and with which session id. -/
structure TransportCall where
  op : OpKind
  sessionId : String
deriving DecidableEq, Repr

/-- The session gate shared by Stagehand::act / extract / observe / execute
/ close (lib.rs lines 832-856): each first resolves
self.session_id.ok_or_else(Api("Session not initialized")) and only then
calls the transport. The Ok value records the transport call that is made;
the Err value is returned before the transport is touched. -/
def stagehandOp (op : OpKind) (st : StagehandState) : Except StagehandError TransportCall :=
  match st.sessionId with
  | none => Except.error (.api "Session not initialized")
  | some sid => Except.ok ⟨op, sid⟩

/-- The network requests performed by a gated operation: exactly the
recorded transport call when the gate passes, none when it fails. -/
def transportCalls : Except StagehandError TransportCall → List TransportCall
  | Except.ok c => [c]
  | Except.error _ => []

/-- Stagehand::close (lib.rs lines 853-856) as a state transformer, with
the transport's close outcome passed in: with no session it fails with the
gate error, otherwise it returns the transport outcome unchanged. In both
cases self.session_id is left exactly as it was — the source never clears
it. -/
def stagehandClose (st : StagehandState) (tres : Except StagehandError Unit) :
    StagehandState × Except StagehandError Unit :=
  match st.sessionId with
  | none => (st, Except.error (.api "Session not initialized"))
  | some _ => (st, tres)

-- =============================================================================
-- Model configuration (lib.rs lines 106-143, 194-215)
-- =============================================================================

/-- ModelObj (lib.rs lines 108-115). -/
structure ModelObj where
  modelName : String
  apiKey : Option String
  baseUrl : Option String
deriving DecidableEq, Repr

/-- ModelConfiguration (lib.rs lines 120-123). -/
inductive ModelConfiguration where
  | string (s : String) : ModelConfiguration
  | object (o : ModelObj) : ModelConfiguration
deriving DecidableEq, Repr

/-- Serialization of ModelObj under serde(rename_all = camelCase) with
skip_serializing_if on the optional fields (lib.rs lines 106-115): the
modelName key is always present, apiKey and baseURL only when Some. -/
def ModelObj.serializeJson (o : ModelObj) : Json :=
  Json.mkObj
    ([("modelName", Json.str o.modelName)] ++
      (match o.apiKey with
       | some k => [("apiKey", Json.str k)]
       | none => []) ++
      (match o.baseUrl with
       | some u => [("baseURL", Json.str u)]
       | none => []))

/-- The manual Serialize impl of ModelConfiguration (lib.rs lines 125-143):
a bare string is first wrapped into a ModelObj with no apiKey and no
baseURL, so the wire form is always the structured object. -/
def ModelConfiguration.serializeJson : ModelConfiguration → Json
  | .string s => ModelObj.serializeJson ⟨s, none, none⟩
  | .object o => ModelObj.serializeJson o

/-- The user-facing Model enum (lib.rs lines 195-202). -/
inductive Model where
  | string (s : String) : Model
  | config (modelName : String) (apiKey : Option String) (baseUrl : Option String) : Model
deriving DecidableEq, Repr

/-- From Model for ModelConfiguration (lib.rs lines 204-215). -/
def modelToConfiguration : Model → ModelConfiguration
  | .string s => .string s
  | .config n k u => .object ⟨n, k, u⟩

/-- The model name a configuration carries (its wire modelName field). -/
def ModelConfiguration.modelNameOf : ModelConfiguration → String
  | .string s => s
  | .object o => o.modelName

-- =============================================================================
-- Frame constructors and stream predicates used by the theorems
-- =============================================================================

/-- A system frame with status "error" and the given server message, the
shape of lib.rs lines 534-536. -/
def sysErrFrame (m : String) : Json :=
  Json.mkObj [("type", Json.str "system"),
    ("data", Json.mkObj [("status", Json.str "error"), ("error", Json.str m)])]

/-- A system frame with status "finished" carrying the given result
payload. -/
def sysFinishedFrame (r : Json) : Json :=
  Json.mkObj [("type", Json.str "system"),
    ("data", Json.mkObj [("status", Json.str "finished"), ("result", r)])]

/-- A system frame with an arbitrary status and no further data. -/
def sysStatusFrame (s : String) : Json :=
  Json.mkObj [("type", Json.str "system"),
    ("data", Json.mkObj [("status", Json.str s)])]

/-- A log frame with the given message and no status. -/
def logFrame (m : String) : Json :=
  Json.mkObj [("type", Json.str "log"), ("data", Json.mkObj [("message", Json.str m)])]

/-- True exactly for a Transport-variant error item. -/
def isTransportErr {α : Type} : Except StagehandError α → Bool
  | Except.error (StagehandError.transport _) => true
  | _ => false

/-- Holds of a list in which no element follows one satisfying the given
predicate: once p fires, the list ends. -/
def noneAfter {α : Type} (p : α → Bool) : List α → Bool
  | [] => true
  | x :: xs => if p x then xs.isEmpty else noneAfter p xs

/-- Marks the stream items the specification calls terminal for act: any
error, or a Success event. Log items and empty items are not terminal. -/
def actItemTerminal : Except StagehandError ActResponse → Bool
  | Except.error _ => true
  | Except.ok r =>
    match r.event with
    | some (.success _) => true
    | _ => false

/-- Marks the terminal stream items for extract: any error, or a DataJson
event. -/
def extractItemTerminal : Except StagehandError ExtractResponse → Bool
  | Except.error _ => true
  | Except.ok r =>
    match r.event with
    | some (.dataJson _) => true
    | _ => false

-- =============================================================================
-- Helper lemmas
-- =============================================================================

/-- The act frame decoder only ever fails with an Api error, never a
Transport error. -/
theorem decodeActFrame_not_transport (j : Json) :
    isTransportErr (decodeActFrame j) = false := by
  unfold decodeActFrame
  repeat' split
  all_goals rfl

/-- The extract frame decoder only ever fails with an Api error. -/
theorem decodeExtractFrame_not_transport (j : Json) :
    isTransportErr (decodeExtractFrame j) = false := by
  unfold decodeExtractFrame
  repeat' split
  all_goals rfl

/-- The observe frame decoder only ever fails with an Api error. -/
theorem decodeObserveFrame_not_transport (j : Json) :
    isTransportErr (decodeObserveFrame j) = false := by
  unfold decodeObserveFrame
  repeat' split
  all_goals rfl

/-- The execute frame decoder only ever fails with an Api error. -/
theorem decodeExecuteFrame_not_transport (j : Json) :
    isTransportErr (decodeExecuteFrame j) = false := by
  unfold decodeExecuteFrame
  repeat' split
  all_goals rfl

/-- In the decoded stream of any operation whose decoder never produces a
Transport error, no item follows a Transport error: the pump breaks right
after forwarding one. -/
theorem ssePump_map_noneAfter {α : Type} (decode : Json → Except StagehandError α)
    (hdec : ∀ j, isTransportErr (decode j) = false) (items : List SseItem) :
    noneAfter isTransportErr ((ssePump items).map (fun r => r.bind decode)) = true := by
  induction items with
  | nil => rfl
  | cons x rest ih =>
    cases x with
    | event parsed raw =>
      cases parsed with
      | some j =>
        show noneAfter isTransportErr ((Except.ok j).bind decode ::
          (ssePump rest).map (fun r => r.bind decode)) = true
        rw [noneAfter]
        simp only [Except.bind, hdec j, if_false, Bool.false_eq_true, ite_false]
        exact ih
      | none =>
        show noneAfter isTransportErr
          ((Except.error (.api ("Failed to parse SSE event: " ++ raw)) :
              Except StagehandError Json).bind decode ::
            (ssePump rest).map (fun r => r.bind decode)) = true
        rw [noneAfter]
        exact ih
    | comment => exact ih
    | connErr m => rfl

/-- The pump emits at most one channel item per inbound SSE item. -/
theorem ssePump_length_le (items : List SseItem) :
    (ssePump items).length ≤ items.length := by
  induction items with
  | nil => exact Nat.le_refl 0
  | cons x rest ih =>
    cases x with
    | event parsed raw =>
      cases parsed with
      | some j => exact Nat.succ_le_succ ih
      | none => exact Nat.succ_le_succ ih
    | comment => exact Nat.le_succ_of_le ih
    | connErr m => exact Nat.succ_le_succ (Nat.zero_le _)

/-- A prefix of init stream items none of which is significant (an error, or
a Result with a non-empty id) is skipped by the loop of Stagehand::init. -/
theorem stagehandInitLoop_append_insignificant
    (pre rest : List (Except StagehandError InitResponse))
    (h : ∀ x ∈ pre, initSignificant x = false) :
    stagehandInitLoop (pre ++ rest) = stagehandInitLoop rest := by
  induction pre with
  | nil => rfl
  | cons x pre ih =>
    have hx := h x (List.mem_cons_self x pre)
    have hpre : ∀ y ∈ pre, initSignificant y = false :=
      fun y hy => h y (List.mem_cons_of_mem x hy)
    cases x with
    | error e => simp [initSignificant] at hx
    | ok r =>
      obtain ⟨ev⟩ := r
      cases ev with
      | none => simpa [stagehandInitLoop] using ih hpre
      | some e =>
        cases e with
        | log l => simpa [stagehandInitLoop] using ih hpre
        | result res =>
          have hres : res.sessionId = "" := by
            simpa [initSignificant] using hx
          simpa [stagehandInitLoop, hres] using ih hpre

-- =============================================================================
-- Claim theorems
-- =============================================================================

/-- Claim C3, counterexample: the error produced by an operation on an
uninitialized façade is the generic Api variant with message "Session not
initialized" — the very same error value the decoder produces for a remote
server error carrying that message — not a dedicated MissingSession or
precondition variant (StagehandError has only Transport, Api and
MissingApiKey). -/
theorem missing_session_error_is_plain_api_cex :
    stagehandOp OpKind.act ⟨none⟩ = Except.error (.api "Session not initialized") ∧
    decodeActFrame (sysErrFrame "Session not initialized") =
      Except.error (.api "Session not initialized") :=
  ⟨rfl, rfl⟩

/-- Claim C3, amended: on a façade whose session state is uninitialized,
each of act, extract, observe, execute and close fails immediately with the
Api error "Session not initialized" (the library has no dedicated
MissingSession variant) and performs zero transport invocations. -/
theorem uninitialized_ops_fail_without_transport (op : OpKind) :
    stagehandOp op ⟨none⟩ = Except.error (.api "Session not initialized") ∧
    transportCalls (stagehandOp op ⟨none⟩) = [] :=
  ⟨rfl, rfl⟩

/-- Claim C4, counterexample: after close on an active façade the stored
session id is NOT cleared — the state still holds the session, for a
successful close as well as for a failed one, contradicting the claim that
the state becomes Uninitialized. -/
theorem close_keeps_session_cex :
    (stagehandClose ⟨some "sess-1"⟩ (Except.ok ())).1.sessionId ≠ none ∧
    (stagehandClose ⟨some "sess-1"⟩ (Except.ok ())).1.sessionId = some "sess-1" ∧
    (stagehandClose ⟨some "sess-1"⟩
        (Except.error (.transport "connection refused"))).1.sessionId = some "sess-1" := by
  refine ⟨?_, rfl, rfl⟩
  decide

/-- Claim C4, amended: close on an active façade forwards the transport
outcome unchanged but leaves the stored session id exactly as it was — the
façade remains Active regardless of whether the remote acknowledged the
close or the request failed. -/
theorem close_leaves_state_unchanged (sid : String) (tres : Except StagehandError Unit) :
    stagehandClose ⟨some sid⟩ tres = (⟨some sid⟩, tres) :=
  rfl

/-- Claim C5, counterexample: a frame whose type discriminator is "bogus"
(neither "system" nor "log") decoded for act yields Ok with no event — the
frame is silently dropped — not the terminal protocol-level parse error the
claim demands. -/
theorem unknown_discriminator_cex :
    decodeActFrame (Json.mkObj [("type", Json.str "bogus")]) = Except.ok ⟨none⟩ :=
  rfl

/-- Claim C5, amended: for every inbound frame whose type discriminator is
present but neither "system" nor "log", each of the four operation decoders
(act, extract, observe, execute) yields no event and no error: the frame is
dropped and the stream continues. (init performs a plain HTTP POST and has
no frame decoder at all.) -/
theorem unknown_discriminator_is_dropped (j : Json) (t : String)
    (h1 : (j.getKey "type").asStr = some t)
    (h2 : t ≠ "system") (h3 : t ≠ "log") :
    decodeActFrame j = Except.ok ⟨none⟩ ∧
    decodeExtractFrame j = Except.ok ⟨none⟩ ∧
    decodeObserveFrame j = Except.ok ⟨none⟩ ∧
    decodeExecuteFrame j = Except.ok ⟨none⟩ := by
  refine ⟨?_, ?_, ?_, ?_⟩ <;>
    simp [decodeActFrame, decodeExtractFrame, decodeObserveFrame, decodeExecuteFrame,
      h1, h2, h3]

/-- Claim C5, witness: the amended theorem applied to a concrete frame with
discriminator "weird". -/
theorem unknown_discriminator_witness :
    decodeActFrame (Json.mkObj [("type", Json.str "weird")]) = Except.ok ⟨none⟩ ∧
    decodeExtractFrame (Json.mkObj [("type", Json.str "weird")]) = Except.ok ⟨none⟩ ∧
    decodeObserveFrame (Json.mkObj [("type", Json.str "weird")]) = Except.ok ⟨none⟩ ∧
    decodeExecuteFrame (Json.mkObj [("type", Json.str "weird")]) = Except.ok ⟨none⟩ :=
  unknown_discriminator_is_dropped (Json.mkObj [("type", Json.str "weird")]) "weird"
    rfl (by decide) (by decide)

/-- Claim C6: a system frame with status "error" whose data.error field is
the string m decodes, for each of the four streaming operations, to an Api
error whose message is exactly m, character for character; in particular
m = "boom" yields Api "boom". -/
theorem system_error_message_verbatim (m : String) :
    decodeActFrame (sysErrFrame m) = Except.error (.api m) ∧
    decodeExtractFrame (sysErrFrame m) = Except.error (.api m) ∧
    decodeObserveFrame (sysErrFrame m) = Except.error (.api m) ∧
    decodeExecuteFrame (sysErrFrame m) = Except.error (.api m) :=
  ⟨rfl, rfl, rfl, rfl⟩

/-- Claim C9: a bare-string model value always serializes to the structured
wire object holding only the modelName key — apiKey and baseURL are entirely
absent, not null; every model configuration serializes to an object whose
first field is modelName (the shorthand never reaches the wire); and
Model::String("openai/gpt-4o") renders to exactly
the object with the single modelName field. The normalizer is a total
function (no error path). -/
theorem model_string_normalized_to_object (s : String) :
    ModelConfiguration.serializeJson (.string s) =
      Json.mkObj [("modelName", Json.str s)] ∧
    (∀ m : ModelConfiguration, ∃ rest, ModelConfiguration.serializeJson m =
      Json.obj (JsonFields.cons "modelName" (Json.str m.modelNameOf) rest)) ∧
    Json.render (ModelConfiguration.serializeJson
        (modelToConfiguration (Model.string "openai/gpt-4o"))) =
      "\x7b\"modelName\":\"openai/gpt-4o\"\x7d" := by
  refine ⟨rfl, ?_, rfl⟩
  intro m
  cases m with
  | string s => exact ⟨JsonFields.nil, rfl⟩
  | object o =>
    obtain ⟨n, k, u⟩ := o
    cases k <;> cases u <;> exact ⟨_, rfl⟩

/-- Claim C10: in the act decoder, a system/finished frame whose nested
result.success field is missing or not a boolean decodes to Success(true)
— the success flag defaults to true — and likewise a frame with no type
discriminator whose top-level success field is missing or not a boolean
decodes to Success(true). -/
theorem act_success_defaults_to_true (j k : Json)
    (h1 : (j.getKey "type").asStr = some "system")
    (h2 : ((j.getKey "data").getKey "status").asStr = some "finished")
    (h3 : (((j.getKey "data").getKey "result").getKey "success").asBool = none)
    (h4 : (k.getKey "type").asStr = none)
    (h5 : (k.getKey "success").asBool = none) :
    decodeActFrame j = Except.ok ⟨some (.success true)⟩ ∧
    decodeActFrame k = Except.ok ⟨some (.success true)⟩ := by
  constructor
  · simp [decodeActFrame, h1, h2, h3]
  · simp [decodeActFrame, h4, h5]

/-- Claim C10, witness: the theorem applied to a finished frame whose result
object lacks the success key, and a typeless frame whose success field is a
string rather than a boolean. -/
theorem act_success_defaults_to_true_witness :
    decodeActFrame (sysFinishedFrame (Json.mkObj [])) = Except.ok ⟨some (.success true)⟩ ∧
    decodeActFrame (Json.mkObj [("success", Json.str "yes")]) =
      Except.ok ⟨some (.success true)⟩ :=
  act_success_defaults_to_true (sysFinishedFrame (Json.mkObj []))
    (Json.mkObj [("success", Json.str "yes")]) rfl rfl rfl rfl rfl

/-- Two system/finished frames in a row, an inbound sequence on which the
act stream delivers two terminal events. -/
def doubleFinishedItems : List SseItem :=
  [SseItem.event (some (sysFinishedFrame (Json.mkObj [("success", Json.bool true)]))) "",
   SseItem.event (some (sysFinishedFrame (Json.mkObj [("success", Json.bool true)]))) ""]

/-- Claim C1, counterexample: fed two system/finished frames, the act
stream delivers two terminal Success events — the decoder maps every frame
and nothing truncates the stream after the first terminal event, so the
stream can contain more than one terminal item and items can follow one. -/
theorem double_terminal_cex :
    actStream doubleFinishedItems =
      [Except.ok ⟨some (.success true)⟩, Except.ok ⟨some (.success true)⟩] ∧
    ((actStream doubleFinishedItems).filter actItemTerminal).length = 2 :=
  ⟨rfl, rfl⟩

/-- Claim C1, amended: for each of the four push-stream operations and
every finite sequence of inbound SSE items, no item is ever delivered after
a transport-level error (the pump forwards it and breaks); but a decoded
terminal event or Api error does not end the stream — each frame up to the
first transport error is decoded to its own item, so several terminal items
may appear and the last item is terminal only when the last inbound frame
is. -/
theorem push_streams_stop_only_on_transport_error (items : List SseItem) :
    noneAfter isTransportErr (actStream items) = true ∧
    noneAfter isTransportErr (extractStream items) = true ∧
    noneAfter isTransportErr (observeStream items) = true ∧
    noneAfter isTransportErr (executeStream items) = true :=
  ⟨ssePump_map_noneAfter decodeActFrame decodeActFrame_not_transport items,
   ssePump_map_noneAfter decodeExtractFrame decodeExtractFrame_not_transport items,
   ssePump_map_noneAfter decodeObserveFrame decodeObserveFrame_not_transport items,
   ssePump_map_noneAfter decodeExecuteFrame decodeExecuteFrame_not_transport items⟩

/-- Claim C2: Stagehand::init scans the init stream in order: with no
significant item (no error and no Result event with a non-empty id) it
fails with the dedicated Api error "Init stream ended without a session
ID." and leaves the state untouched; if the first significant item is an
error it returns exactly that error with the state untouched; if the first
significant item is a Result event with a non-empty session id it stores
that id as the active session and succeeds. -/
theorem stagehand_init_spec (st : StagehandState)
    (items pre post : List (Except StagehandError InitResponse))
    (e : StagehandError) (sid : String) :
    ((∀ x ∈ items, initSignificant x = false) →
      stagehandInit st items =
        (st, Except.error (.api "Init stream ended without a session ID."))) ∧
    (items = pre ++ Except.error e :: post →
      (∀ x ∈ pre, initSignificant x = false) →
      stagehandInit st items = (st, Except.error e)) ∧
    (items = pre ++ Except.ok ⟨some (.result ⟨sid⟩)⟩ :: post →
      sid ≠ "" →
      (∀ x ∈ pre, initSignificant x = false) →
      stagehandInit st items = (⟨some sid⟩, Except.ok ())) := by
  refine ⟨?_, ?_, ?_⟩
  · intro h
    have hloop : stagehandInitLoop items =
        Except.error (.api "Init stream ended without a session ID.") := by
      have := stagehandInitLoop_append_insignificant items [] h
      simpa [stagehandInitLoop] using this
    simp [stagehandInit, hloop]
  · intro heq h
    subst heq
    have hloop : stagehandInitLoop (pre ++ Except.error e :: post) = Except.error e := by
      rw [stagehandInitLoop_append_insignificant pre _ h, stagehandInitLoop]
    simp [stagehandInit, hloop]
  · intro heq hsid h
    subst heq
    have hloop : stagehandInitLoop
        (pre ++ Except.ok ⟨some (.result ⟨sid⟩)⟩ :: post) = Except.ok sid := by
      rw [stagehandInitLoop_append_insignificant pre _ h]
      simp [stagehandInitLoop, hsid]
    simp [stagehandInit, hloop]

/-- Claim C2, witness: starting uninitialized, a stream of one log item
followed by a Result with id "sess-1" makes init store "sess-1" and
succeed. -/
theorem stagehand_init_spec_witness :
    stagehandInit ⟨none⟩
        [Except.ok ⟨some (.log ⟨"starting", none⟩)⟩,
         Except.ok ⟨some (.result ⟨"sess-1"⟩)⟩] =
      (⟨some "sess-1"⟩, Except.ok ()) :=
  (stagehand_init_spec ⟨none⟩
      [Except.ok ⟨some (.log ⟨"starting", none⟩)⟩, Except.ok ⟨some (.result ⟨"sess-1"⟩)⟩]
      [Except.ok ⟨some (.log ⟨"starting", none⟩)⟩] [] (.api "unused") "sess-1").2.2
    rfl (by decide) (by decide)

/-- Claim C7, counterexample: a system/finished frame does not end the
stream — after a finished frame the extract stream still delivers the item
of the next frame (here a log frame), so the terminal Data event is not the
last item. -/
theorem finished_does_not_end_stream_cex :
    extractStream
        [SseItem.event (some (sysFinishedFrame (Json.mkObj []))) "",
         SseItem.event (some (logFrame "hi")) ""] =
      [Except.ok ⟨some (.dataJson "\x7b\x7d")⟩,
       Except.ok ⟨some (.log ⟨"hi", none⟩)⟩] :=
  rfl

/-- Claim C7, amended: a system/finished frame with result success=true
decoded for act yields Success(true); a system/finished frame with any
result payload decoded for extract yields Data of the compact JSON of that
payload; a finished frame yields the operation's terminal event but does
not by itself end the stream; and a system frame with any status other than
"finished" and "error" yields no event and the stream continues. -/
theorem finished_frame_decoding (r : Json) (s : String)
    (h1 : s ≠ "finished") (h2 : s ≠ "error") :
    decodeActFrame (sysFinishedFrame (Json.mkObj [("success", Json.bool true)])) =
      Except.ok ⟨some (.success true)⟩ ∧
    decodeExtractFrame (sysFinishedFrame r) = Except.ok ⟨some (.dataJson r.render)⟩ ∧
    decodeActFrame (sysStatusFrame s) = Except.ok ⟨none⟩ ∧
    decodeExtractFrame (sysStatusFrame s) = Except.ok ⟨none⟩ := by
  refine ⟨rfl, rfl, ?_, ?_⟩ <;>
    simp [decodeActFrame, decodeExtractFrame, sysStatusFrame, Json.mkObj, fieldsOfList,
      Json.getKey, JsonFields.get, Json.asStr, h1, h2]

/-- Claim C7, witness: the amended theorem at a concrete result payload and
the concrete non-terminal status "running". -/
theorem finished_frame_decoding_witness :
    decodeActFrame (sysFinishedFrame (Json.mkObj [("success", Json.bool true)])) =
      Except.ok ⟨some (.success true)⟩ ∧
    decodeExtractFrame (sysFinishedFrame (Json.mkObj [("a", Json.str "b")])) =
      Except.ok ⟨some (.dataJson (Json.render (Json.mkObj [("a", Json.str "b")])))⟩ ∧
    decodeActFrame (sysStatusFrame "running") = Except.ok ⟨none⟩ ∧
    decodeExtractFrame (sysStatusFrame "running") = Except.ok ⟨none⟩ :=
  finished_frame_decoding (Json.mkObj [("a", Json.str "b")]) "running"
    (by decide) (by decide)

/-- Claim C8, counterexample: with no inbound frames at all (idle for any
length of time), the act stream delivers no items whatsoever — in
particular not the single Timeout error the claim requires. The pump of
execute_stream has no timer, and StagehandError has no Timeout variant. -/
theorem idle_stream_yields_nothing_cex :
    actStream ([] : List SseItem) = [] :=
  rfl

/-- Claim C8, amended: the push-stream transport enforces no inactivity
timeout: for each operation, items are produced only by decoding inbound
SSE items — at most one item per inbound item — so an idle stream yields
nothing, and no timeout error of any kind exists (the error taxonomy has
only Transport, Api and MissingApiKey). -/
theorem no_idle_timeout (items : List SseItem) :
    (actStream items).length ≤ items.length ∧
    (extractStream items).length ≤ items.length ∧
    (observeStream items).length ≤ items.length ∧
    (executeStream items).length ≤ items.length := by
  refine ⟨?_, ?_, ?_, ?_⟩ <;>
    simpa [actStream, extractStream, observeStream, executeStream]
      using ssePump_length_le items
